import Mathlib

/-!
Verification development for the `ha.py` module of ha-sip: a bridge between a
telephony layer and a home-automation hub.  The Python source is shallowly
embedded: pure functions become Lean functions, HTTP calls are mediated by an
environment oracle together with an explicit trace of the requests made, the
filesystem used by the TTS pipeline is explicit state, and the external audio
library (pydub) is a codec parameter.
-/

namespace HaSip

/-- A minimal JSON value model, covering what the module sends and receives. -/
inductive Json : Type where
  | null : Json
  | str (s : String) : Json
  | num (n : Int) : Json
  | bool (b : Bool) : Json
  | arr (xs : List Json) : Json
  | obj (fields : List (String × Json)) : Json

/-- First-match lookup in a string-keyed association list (Python dict access
order for the literal dicts the module builds). -/
def alookup {α : Type} : List (String × α) → String → Option α
  | [], _ => none
  | (k, v) :: rest, key => if k = key then some v else alookup rest key

/-! ## Event taxonomy

The six TypedDict declarations `IncomingCallEvent` … `Timeout` from the source
become one sum type tagged by the `event` field. -/

inductive WebhookEvent : Type where
  | incoming_call (caller : String) (parsed_caller : Option String)
  | call_established (caller : String) (parsed_caller : Option String)
  | call_disconnected (caller : String) (parsed_caller : Option String)
  | entered_menu (caller : String) (parsed_caller : Option String) (menu_id : String)
  | dtmf_digit (caller : String) (parsed_caller : Option String) (digit : String)
  | timeout
  deriving DecidableEq, Repr

/-- Serialization of an `Optional[str]` field value: `None` becomes JSON null. -/
def optStr : Option String → Json
  | none => Json.null
  | some s => Json.str s

/-- The field list of the JSON object a `WebhookEvent` dict serializes to when
posted via `requests.post(..., json=event, ...)`: the TypedDict keys in
declaration order. -/
def serializeFields : WebhookEvent → List (String × Json)
  | .incoming_call caller parsed_caller =>
      [("event", Json.str "incoming_call"), ("caller", Json.str caller),
       ("parsed_caller", optStr parsed_caller)]
  | .call_established caller parsed_caller =>
      [("event", Json.str "call_established"), ("caller", Json.str caller),
       ("parsed_caller", optStr parsed_caller)]
  | .call_disconnected caller parsed_caller =>
      [("event", Json.str "call_disconnected"), ("caller", Json.str caller),
       ("parsed_caller", optStr parsed_caller)]
  | .entered_menu caller parsed_caller menu_id =>
      [("event", Json.str "entered_menu"), ("caller", Json.str caller),
       ("parsed_caller", optStr parsed_caller), ("menu_id", Json.str menu_id)]
  | .dtmf_digit caller parsed_caller digit =>
      [("event", Json.str "dtmf_digit"), ("caller", Json.str caller),
       ("parsed_caller", optStr parsed_caller), ("digit", Json.str digit)]
  | .timeout => [("event", Json.str "timeout")]

/-- Serialization of a `WebhookEvent` record to JSON. -/
def serializeEvent (e : WebhookEvent) : Json :=
  Json.obj (serializeFields e)

/-- The keys the tag of an event mandates (the TypedDict keys of its variant). -/
def mandatedKeys : WebhookEvent → List String
  | .incoming_call _ _ => ["event", "caller", "parsed_caller"]
  | .call_established _ _ => ["event", "caller", "parsed_caller"]
  | .call_disconnected _ _ => ["event", "caller", "parsed_caller"]
  | .entered_menu _ _ _ => ["event", "caller", "parsed_caller", "menu_id"]
  | .dtmf_digit _ _ _ => ["event", "caller", "parsed_caller", "digit"]
  | .timeout => ["event"]

/-- Read a mandated `str` field. -/
def getStr (fields : List (String × Json)) (key : String) : Option String :=
  match alookup fields key with
  | some (Json.str s) => some s
  | _ => none

/-- Read a mandated `Optional[str]` field: the key must be present, its value
may be null. -/
def getOptStr (fields : List (String × Json)) (key : String) : Option (Option String) :=
  match alookup fields key with
  | some Json.null => some none
  | some (Json.str s) => some (some s)
  | _ => none

/-- Modelled from the spec: the repository only declares the event shapes
(TypedDicts) and posts them; no deserializer exists in the source.  Per the
spec the tag field `event` fully determines which fields are required, so
reading a `WebhookEvent` back from JSON dispatches on the tag, requires
exactly the mandated fields of that tag, and ignores any other fields. -/
def deserializeEvent : Json → Option WebhookEvent
  | Json.obj fields =>
    match getStr fields "event" with
    | none => none
    | some tag =>
      if tag = "incoming_call" then
        match getStr fields "caller", getOptStr fields "parsed_caller" with
        | some caller, some parsed_caller => some (.incoming_call caller parsed_caller)
        | _, _ => none
      else if tag = "call_established" then
        match getStr fields "caller", getOptStr fields "parsed_caller" with
        | some caller, some parsed_caller => some (.call_established caller parsed_caller)
        | _, _ => none
      else if tag = "call_disconnected" then
        match getStr fields "caller", getOptStr fields "parsed_caller" with
        | some caller, some parsed_caller => some (.call_disconnected caller parsed_caller)
        | _, _ => none
      else if tag = "entered_menu" then
        match getStr fields "caller", getOptStr fields "parsed_caller",
              getStr fields "menu_id" with
        | some caller, some parsed_caller, some menu_id =>
            some (.entered_menu caller parsed_caller menu_id)
        | _, _, _ => none
      else if tag = "dtmf_digit" then
        match getStr fields "caller", getOptStr fields "parsed_caller",
              getStr fields "digit" with
        | some caller, some parsed_caller, some digit =>
            some (.dtmf_digit caller parsed_caller digit)
        | _, _, _ => none
      else if tag = "timeout" then some .timeout
      else none
  | _ => none

/-! ## Config (`HaConfig`) -/

structure HaConfig : Type where
  base_url : String
  token : String
  tts_engine : String
  tts_language : String
  webhook_id : String
  deriving DecidableEq, Repr

/-- Constructor `HaConfig.__init__`.  The `tts_language` argument is optional
in the sense that callers may pass `None` for an absent value; the body stores
the Python expression `tts_language or "en"`, so `None` and the empty string
both normalize to `"en"`. -/
def mkHaConfig (base_url token tts_engine : String) (tts_language : Option String)
    (webhook_id : String) : HaConfig :=
  { base_url := base_url
    token := token
    tts_engine := tts_engine
    tts_language :=
      match tts_language with
      | none => "en"
      | some s => if s = "" then "en" else s
    webhook_id := webhook_id }

/-- Method `HaConfig.create_headers`, in explicit state-passing form: the
method body reads `self.token` and assigns nothing to `self`. -/
def create_headersM (self : HaConfig) : List (String × String) × HaConfig :=
  ([("Authorization", "Bearer " ++ self.token),
    ("content-type", "application/json")], self)

def create_headers (self : HaConfig) : List (String × String) :=
  (create_headersM self).1

/-- Method `HaConfig.get_tts_url`, in explicit state-passing form. -/
def get_tts_urlM (self : HaConfig) : String × HaConfig :=
  (self.base_url ++ "/tts_get_url", self)

def get_tts_url (self : HaConfig) : String :=
  (get_tts_urlM self).1

/-- Method `HaConfig.get_service_url`, in explicit state-passing form. -/
def get_service_urlM (self : HaConfig) (domain service : String) : String × HaConfig :=
  (self.base_url ++ "/services/" ++ domain ++ "/" ++ service, self)

def get_service_url (self : HaConfig) (domain service : String) : String :=
  (get_service_urlM self domain service).1

/-- Method `HaConfig.get_webhook_url`, in explicit state-passing form. -/
def get_webhook_urlM (self : HaConfig) : String × HaConfig :=
  (self.base_url ++ "/webhook/" ++ self.webhook_id, self)

def get_webhook_url (self : HaConfig) : String :=
  (get_webhook_urlM self).1

/-! ## HTTP model

An HTTP response carries a status code, the raw body bytes, and the result of
calling `.json()` on that body (the environment fixes the body, hence also
whether it parses).  The network is an oracle of functions; a network-level
failure (connection refused, DNS, timeout) is an `Except.error`. -/

structure HttpResponse : Type where
  status_code : Nat
  content : List Nat
  jsonOf : Except String Json

/-- A record of one HTTP request the module issued. -/
inductive Request : Type where
  | post (url : String) (body : Json) (headers : List (String × String))
  | get (url : String) (headers : List (String × String))

/-- One log line (`print` call) of the module, kept structured. -/
inductive LogEntry : Type where
  | ttsError (status : Nat) (content : List Nat)
  | serviceResponse (status : Nat) (content : List Nat)
  | warningNoWebhook
  | callingWebhook (webhook_id : String) (event : Json)
  | webhookResponse (status : Nat) (content : List Nat)

/-- The external world: `requests.post`, `requests.get`, and the value of
`constants.ROOT_PATH`.  The root path is modelled from the spec: the
`constants` module is not in the source; the spec calls it the application
root directory under which the bundled fallback asset lives. -/
structure Env : Type where
  post : String → Json → List (String × String) → Except String HttpResponse
  get : String → List (String × String) → Except String HttpResponse
  rootPath : String

/-- A Python exception escaping an operation. -/
inductive PyError : Type where
  | network (msg : String)
  | jsonDecode (msg : String)
  | keyError (key : String)
  | typeError (msg : String)
  | audioDecode (msg : String)

/-! ## Filesystem and audio model -/

/-- Scratch filesystem: file contents by name, plus a counter from which
`tempfile` draws fresh names. -/
structure FS : Type where
  files : List (String × List Nat)
  counter : Nat

/-- Model of `tempfile.NamedTemporaryFile`: allocate a fresh scratch name. -/
def mkTemp (fs : FS) (suffix : String) : String × FS :=
  ("/tmp/tmp" ++ toString fs.counter ++ suffix, { fs with counter := fs.counter + 1 })

def writeFile (fs : FS) (name : String) (data : List Nat) : FS :=
  { fs with files := (name, data) :: fs.files }

def readFile (fs : FS) (name : String) : Option (List Nat) :=
  alookup fs.files name

/-- The external audio library (pydub): a decoder for the compressed (MP3)
format and an encoder for the uncompressed (WAV) format, over audio as a
sample list.  A payload the decoder rejects raises `CouldntDecodeError`. -/
structure AudioCodec : Type where
  decodeMp3 : List Nat → Option (List Int)
  encodeWav : List Int → List Nat

/-- Function `convert_mp3_to_wav`: write the fetched bytes to a scratch file,
decode it as MP3, export the decoded audio as WAV to a second scratch file
(created with suffix `.wav` and not auto-deleted), and return the name of that
second file.  Decoding failure propagates. -/
def convert_mp3_to_wav (codec : AudioCodec) (fs : FS) (stream : List Nat) :
    Except PyError (String × FS) :=
  let mp3t := mkTemp fs ""
  let fs1 := writeFile mp3t.2 mp3t.1 stream
  match codec.decodeMp3 stream with
  | none => .error (.audioDecode "CouldntDecodeError")
  | some sound =>
    let wavt := mkTemp fs1 ".wav"
    let fs2 := writeFile wavt.2 wavt.1 (codec.encodeWav sound)
    .ok (wavt.1, fs2)

/-- Model of `os.path.join`, restricted to the two-argument form the module
uses. -/
def pathJoin (a b : String) : String :=
  if b.startsWith "/" then b
  else if a = "" then b
  else if a.endsWith "/" then a ++ b
  else a ++ "/" ++ b

/-- The JSON body of the TTS-creation POST. -/
def ttsBody (ha_config : HaConfig) (message language : String) : Json :=
  Json.obj [("platform", Json.str ha_config.tts_engine),
            ("message", Json.str message), ("language", Json.str language)]

/-- The normal outcome of `create_and_get_tts`: the returned pair (file name,
must-delete flag), the filesystem afterwards, and the requests and log lines
produced. -/
structure TtsOutcome : Type where
  result : String × Bool
  fs : FS
  requests : List Request
  logs : List LogEntry

/-- Function `create_and_get_tts`: POST the synthesis request; on a non-200
status log and return the bundled fallback with owned=false; otherwise parse
the JSON body, take its `url` field, GET it, and transcode whatever bytes came
back.  Network errors, JSON parse failure, a missing or non-string `url`, and
transcoding failure all propagate. -/
def create_and_get_tts (codec : AudioCodec) (env : Env) (fs : FS)
    (ha_config : HaConfig) (message language : String) :
    Except PyError TtsOutcome :=
  let headers := create_headers ha_config
  let body := ttsBody ha_config message language
  let req1 := Request.post (get_tts_url ha_config) body headers
  match env.post (get_tts_url ha_config) body headers with
  | .error msg => .error (.network msg)
  | .ok create_response =>
    if create_response.status_code ≠ 200 then
      let error_file_name := pathJoin env.rootPath "sound/answer.wav"
      .ok { result := (error_file_name, false), fs := fs, requests := [req1],
            logs := [.ttsError create_response.status_code create_response.content] }
    else
      match create_response.jsonOf with
      | .error msg => .error (.jsonDecode msg)
      | .ok response_deserialized =>
        match response_deserialized with
        | Json.obj fields =>
          match alookup fields "url" with
          | none => .error (.keyError "url")
          | some (Json.str mp3_url) =>
            let req2 := Request.get mp3_url headers
            match env.get mp3_url headers with
            | .error msg => .error (.network msg)
            | .ok mp3_response =>
              match convert_mp3_to_wav codec fs mp3_response.content with
              | .error e => .error e
              | .ok wavAndFs =>
                .ok { result := (wavAndFs.1, true), fs := wavAndFs.2,
                      requests := [req1, req2], logs := [] }
          | some _ => .error (.typeError "url is not a string")
        | _ => .error (.typeError "subscripting a non-object")

/-- Function `call_service`: one POST to the service URL, outcome only
logged. -/
def call_service (env : Env) (ha_config : HaConfig) (domain service entity_id : String) :
    Except PyError (List Request × List LogEntry) :=
  let headers := create_headers ha_config
  let body := Json.obj [("entity_id", Json.str entity_id)]
  match env.post (get_service_url ha_config domain service) body headers with
  | .error msg => .error (.network msg)
  | .ok service_response =>
    .ok ([Request.post (get_service_url ha_config domain service) body headers],
         [.serviceResponse service_response.status_code service_response.content])

/-- Function `trigger_webhook`: with an empty (falsy) `webhook_id`, log a
warning and return without a network call; otherwise POST the serialized event
to the webhook URL and log the response. -/
def trigger_webhook (env : Env) (ha_config : HaConfig) (event : WebhookEvent) :
    Except PyError (List Request × List LogEntry) :=
  if ha_config.webhook_id = "" then
    .ok ([], [.warningNoWebhook])
  else
    let headers := create_headers ha_config
    let body := serializeEvent event
    match env.post (get_webhook_url ha_config) body headers with
    | .error msg => .error (.network msg)
    | .ok service_response =>
      .ok ([Request.post (get_webhook_url ha_config) body headers],
           [.callingWebhook ha_config.webhook_id body,
            .webhookResponse service_response.status_code service_response.content])

/-! ## Sample worlds used to instantiate the theorems -/

/-- A sample codec: byte streams opening with the bytes 255, 251 decode, the
rest of the stream being the samples; the WAV encoding prepends a four-byte
header. -/
def codec0 : AudioCodec where
  decodeMp3 := fun bytes =>
    match bytes with
    | 255 :: 251 :: rest => some (rest.map (fun b => Int.ofNat b))
    | _ => none
  encodeWav := fun samples => 82 :: 73 :: 70 :: 70 :: samples.map (fun s => s.toNat)

def fs0 : FS where
  files := []
  counter := 0

def cfg0 : HaConfig :=
  mkHaConfig "http://h:8123/api" "tok" "cloud" (some "en") "hook"

def resp500 : HttpResponse where
  status_code := 500
  content := [1, 2]
  jsonOf := .error "not json"

/-- A world whose TTS-creation POST always answers with status 500. -/
def envFail : Env where
  post := fun _ _ _ => .ok resp500
  get := fun _ _ => .error "connection refused"
  rootPath := "/app"

def respOk : HttpResponse where
  status_code := 200
  content := []
  jsonOf := .ok (Json.obj [("url", Json.str "http://h/audio.mp3")])

/-- An audio GET response: failing status, but a body the codec decodes. -/
def respMp3 : HttpResponse where
  status_code := 404
  content := [255, 251, 9, 8]
  jsonOf := .error "binary"

/-- A world whose POST answers 200 with a synthesis URL and whose GET serves
the audio bytes (with a non-200 status, which the module never inspects). -/
def envOk : Env where
  post := fun _ _ _ => .ok respOk
  get := fun _ _ => .ok respMp3
  rootPath := "/app"

/-! ## Claims about the Config component -/

/-- C5: the three URL derivations are exact string concatenations of
`base_url` with their fixed suffixes and path segments, with no URL-encoding;
in particular the service URL for light/turn_on under the sample base URL. -/
theorem config_url_derivations :
    (∀ c : HaConfig, get_tts_url c = c.base_url ++ "/tts_get_url") ∧
    (∀ (c : HaConfig) (domain service : String),
      get_service_url c domain service
        = c.base_url ++ "/services/" ++ domain ++ "/" ++ service) ∧
    (∀ c : HaConfig, get_webhook_url c = c.base_url ++ "/webhook/" ++ c.webhook_id) ∧
    get_service_url (mkHaConfig "http://h:8123/api" "t" "e" (some "en") "w") "light" "turn_on"
      = "http://h:8123/api/services/light/turn_on" :=
  ⟨fun _ => rfl, fun _ _ _ => rfl, fun _ => rfl, rfl⟩

/-- C6: `create_headers` yields Authorization equal to the string Bearer
followed by the token, a JSON content-type, mutates nothing, and performs no
validation: an empty token yields the bare Bearer value as-is. -/
theorem create_headers_spec :
    ∀ c : HaConfig,
      alookup (create_headers c) "Authorization" = some ("Bearer " ++ c.token) ∧
      alookup (create_headers c) "content-type" = some "application/json" ∧
      (create_headersM c).2 = c ∧
      alookup (create_headers { c with token := "" }) "Authorization" = some "Bearer " := by
  intro c
  refine ⟨?_, ?_, rfl, ?_⟩ <;> simp [create_headers, create_headersM, alookup]

/-- C7 counterexample: supplying the non-absent empty string as
`tts_language` does not preserve it — the constructed field is "en", not the
supplied value. -/
theorem tts_language_empty_not_preserved :
    (mkHaConfig "http://h" "t" "e" (some "") "w").tts_language = "en" ∧
    (mkHaConfig "http://h" "t" "e" (some "") "w").tts_language ≠ "" :=
  ⟨rfl, by decide⟩

/-- C7 (amended): an absent `tts_language` yields "en", and a supplied
non-empty `tts_language` is stored unchanged (a supplied empty string is also
normalized to "en", since the constructor tests Python truthiness, not
absence). -/
theorem tts_language_default :
    (∀ b t e w, (mkHaConfig b t e none w).tts_language = "en") ∧
    (∀ b t e s w, s ≠ "" → (mkHaConfig b t e (some s) w).tts_language = s) := by
  refine ⟨fun b t e w => rfl, fun b t e s w hs => ?_⟩
  simp [mkHaConfig, hs]

/-- C7 witness: instantiation of the amended claim at a concrete non-empty
language. -/
theorem tts_language_default_witness :
    (mkHaConfig "b" "t" "e" (some "de") "w").tts_language = "de" :=
  tts_language_default.2 "b" "t" "e" "de" "w" (by decide)

/-- C9: constructing with a falsy supplied `tts_language` — the empty string,
or None (the absent marker) — also yields "en": normalization applies to every
falsy value, not only to an omitted one. -/
theorem tts_language_falsy_normalized :
    ∀ b t e w, (mkHaConfig b t e (some "") w).tts_language = "en" ∧
      (mkHaConfig b t e none w).tts_language = "en" :=
  fun _ _ _ _ => ⟨rfl, rfl⟩

/-- C8: the four derivation methods leave the config unchanged, and calling
each URL derivation twice on the (unchanged) config yields the identical
string: pure derivations of an immutable value. -/
theorem config_derivations_pure :
    ∀ (c : HaConfig) (domain service : String),
      (create_headersM c).2 = c ∧
      (get_tts_urlM c).2 = c ∧
      (get_service_urlM c domain service).2 = c ∧
      (get_webhook_urlM c).2 = c ∧
      (get_tts_urlM ((get_tts_urlM c).2)).1 = (get_tts_urlM c).1 ∧
      (get_service_urlM ((get_service_urlM c domain service).2) domain service).1
        = (get_service_urlM c domain service).1 ∧
      (get_webhook_urlM ((get_webhook_urlM c).2)).1 = (get_webhook_urlM c).1 ∧
      (create_headersM ((create_headersM c).2)).1 = (create_headersM c).1 :=
  fun _ _ _ => ⟨rfl, rfl, rfl, rfl, rfl, rfl, rfl, rfl⟩

/-! ## Claims about the Action Dispatcher -/

/-- C3: with an empty `webhook_id`, `trigger_webhook` makes zero HTTP calls
and returns normally, logging only the warning. -/
theorem trigger_webhook_empty_id (env : Env) (c : HaConfig) (e : WebhookEvent)
    (h : c.webhook_id = "") :
    trigger_webhook env c e = .ok ([], [.warningNoWebhook]) := by
  simp [trigger_webhook, h]

/-- C3 witness: a concrete config with empty webhook id, in a world whose
network refuses every connection. -/
theorem trigger_webhook_empty_id_witness :
    trigger_webhook envFail (mkHaConfig "http://h" "t" "e" (some "en") "") WebhookEvent.timeout
      = .ok ([], [LogEntry.warningNoWebhook]) :=
  trigger_webhook_empty_id envFail (mkHaConfig "http://h" "t" "e" (some "en") "")
    WebhookEvent.timeout rfl

/-! ## Claims about the event taxonomy -/

/-- C1: for every one of the six event tags, serializing an event record and
deserializing it yields every mandated field of the tag unchanged, and a field
outside the shape of the tag is ignored by deserialization. -/
theorem webhook_event_roundtrip :
    (∀ e : WebhookEvent, deserializeEvent (serializeEvent e) = some e) ∧
    (∀ (e : WebhookEvent) (k : String) (v : Json), k ∉ mandatedKeys e →
      deserializeEvent (Json.obj (serializeFields e ++ [(k, v)])) = some e) := by
  constructor
  · intro e
    cases e with
    | incoming_call caller parsed_caller => cases parsed_caller <;> rfl
    | call_established caller parsed_caller => cases parsed_caller <;> rfl
    | call_disconnected caller parsed_caller => cases parsed_caller <;> rfl
    | entered_menu caller parsed_caller menu_id => cases parsed_caller <;> rfl
    | dtmf_digit caller parsed_caller digit => cases parsed_caller <;> rfl
    | timeout => rfl
  · intro e k v _
    cases e with
    | incoming_call caller parsed_caller =>
      cases parsed_caller <;>
        simp [deserializeEvent, serializeFields, getStr, getOptStr, optStr, alookup]
    | call_established caller parsed_caller =>
      cases parsed_caller <;>
        simp [deserializeEvent, serializeFields, getStr, getOptStr, optStr, alookup]
    | call_disconnected caller parsed_caller =>
      cases parsed_caller <;>
        simp [deserializeEvent, serializeFields, getStr, getOptStr, optStr, alookup]
    | entered_menu caller parsed_caller menu_id =>
      cases parsed_caller <;>
        simp [deserializeEvent, serializeFields, getStr, getOptStr, optStr, alookup]
    | dtmf_digit caller parsed_caller digit =>
      cases parsed_caller <;>
        simp [deserializeEvent, serializeFields, getStr, getOptStr, optStr, alookup]
    | timeout =>
      simp [deserializeEvent, serializeFields, getStr, getOptStr, optStr, alookup]

/-- C1 witness: a dtmf event with an extra field outside the shape of the tag
still round-trips to the same record. -/
theorem webhook_event_roundtrip_witness :
    deserializeEvent (Json.obj (serializeFields (WebhookEvent.dtmf_digit "123" (some "+123") "5")
        ++ [("extra", Json.num 1)]))
      = some (WebhookEvent.dtmf_digit "123" (some "+123") "5") :=
  webhook_event_roundtrip.2 (WebhookEvent.dtmf_digit "123" (some "+123") "5")
    "extra" (Json.num 1) (by decide)

/-! ## Claims about the TTS pipeline -/

/-- Successful transcode: when the codec accepts the stream, the function
returns the name of the freshly exported WAV scratch file, whose contents are
the WAV encoding of the decoded audio. -/
theorem convert_mp3_to_wav_ok (codec : AudioCodec) (fs : FS) (stream : List Nat)
    (audio : List Int) (hdec : codec.decodeMp3 stream = some audio) :
    ∃ (p : String) (fs2 : FS),
      convert_mp3_to_wav codec fs stream = .ok (p, fs2) ∧
      readFile fs2 p = some (codec.encodeWav audio) := by
  refine ⟨(mkTemp (writeFile (mkTemp fs "").2 (mkTemp fs "").1 stream) ".wav").1,
    writeFile (mkTemp (writeFile (mkTemp fs "").2 (mkTemp fs "").1 stream) ".wav").2
      (mkTemp (writeFile (mkTemp fs "").2 (mkTemp fs "").1 stream) ".wav").1
      (codec.encodeWav audio), ?_, ?_⟩
  · simp [convert_mp3_to_wav, hdec]
  · simp [readFile, writeFile, alookup]

/-- C2: whenever the TTS-creation POST answers with a status other than 200,
`create_and_get_tts` returns the bundled fallback path under the application
root paired with owned=false, makes no further network request (the trace is
the single POST), and propagates no failure (the result is a normal return,
with only the error log line). -/
theorem tts_fallback_on_non_200 (codec : AudioCodec) (env : Env) (fs : FS)
    (c : HaConfig) (message language : String) (r : HttpResponse)
    (hpost : env.post (get_tts_url c) (ttsBody c message language) (create_headers c) = .ok r)
    (hstatus : r.status_code ≠ 200) :
    create_and_get_tts codec env fs c message language =
      .ok { result := (pathJoin env.rootPath "sound/answer.wav", false), fs := fs,
            requests := [Request.post (get_tts_url c) (ttsBody c message language)
              (create_headers c)],
            logs := [.ttsError r.status_code r.content] } := by
  simp [create_and_get_tts, hpost, hstatus]

/-- C2 witness: concrete run in a world answering 500. -/
theorem tts_fallback_on_non_200_witness :
    create_and_get_tts codec0 envFail fs0 cfg0 "hi" "en" =
      .ok { result := (pathJoin envFail.rootPath "sound/answer.wav", false), fs := fs0,
            requests := [Request.post (get_tts_url cfg0) (ttsBody cfg0 "hi" "en")
              (create_headers cfg0)],
            logs := [LogEntry.ttsError resp500.status_code resp500.content] } :=
  tts_fallback_on_non_200 codec0 envFail fs0 cfg0 "hi" "en" resp500 rfl (by decide)

/-- C10: once the creation POST answers 200 with a JSON object carrying a
string `url`, the outcome is a function of the GET response content only — the
GET status code is never inspected, the fetched bytes go to transcoding
unconditionally, and a transcoding failure propagates as an error, never as
the fallback result. -/
theorem tts_get_status_ignored (codec : AudioCodec) (env : Env) (fs : FS)
    (c : HaConfig) (message language : String) (r : HttpResponse)
    (fields : List (String × Json)) (u : String) (g : HttpResponse)
    (hpost : env.post (get_tts_url c) (ttsBody c message language) (create_headers c) = .ok r)
    (hstatus : r.status_code = 200)
    (hjson : r.jsonOf = .ok (Json.obj fields))
    (hurl : alookup fields "url" = some (Json.str u))
    (hget : env.get u (create_headers c) = .ok g) :
    create_and_get_tts codec env fs c message language =
      match convert_mp3_to_wav codec fs g.content with
      | .error e => .error e
      | .ok wavAndFs =>
          .ok { result := (wavAndFs.1, true), fs := wavAndFs.2,
                requests := [Request.post (get_tts_url c) (ttsBody c message language)
                  (create_headers c), Request.get u (create_headers c)],
                logs := [] } := by
  simp [create_and_get_tts, hpost, hstatus, hjson, hurl, hget]

/-- C10 witness: in a world whose audio GET answers status 404, the outcome is
still determined by the fetched bytes alone. -/
theorem tts_get_status_ignored_witness :
    create_and_get_tts codec0 envOk fs0 cfg0 "hi" "en" =
      match convert_mp3_to_wav codec0 fs0 respMp3.content with
      | .error e => .error e
      | .ok wavAndFs =>
          .ok { result := (wavAndFs.1, true), fs := wavAndFs.2,
                requests := [Request.post (get_tts_url cfg0) (ttsBody cfg0 "hi" "en")
                  (create_headers cfg0), Request.get "http://h/audio.mp3" (create_headers cfg0)],
                logs := [] } :=
  tts_get_status_ignored codec0 envOk fs0 cfg0 "hi" "en" respOk
    [("url", Json.str "http://h/audio.mp3")] "http://h/audio.mp3" respMp3
    rfl rfl rfl rfl rfl

/-- C4: when the creation POST answers 200 with a JSON object carrying a
string `url` and the payload fetched from that URL is audio the codec decodes,
`create_and_get_tts` returns owned=true together with the path of a WAV file
whose contents are the WAV encoding of the decoded payload. -/
theorem tts_success_transcodes (codec : AudioCodec) (env : Env) (fs : FS)
    (c : HaConfig) (message language : String) (r : HttpResponse)
    (fields : List (String × Json)) (u : String) (g : HttpResponse) (audio : List Int)
    (hpost : env.post (get_tts_url c) (ttsBody c message language) (create_headers c) = .ok r)
    (hstatus : r.status_code = 200)
    (hjson : r.jsonOf = .ok (Json.obj fields))
    (hurl : alookup fields "url" = some (Json.str u))
    (hget : env.get u (create_headers c) = .ok g)
    (hdec : codec.decodeMp3 g.content = some audio) :
    ∃ (wavPath : String) (fsOut : FS),
      create_and_get_tts codec env fs c message language =
        .ok { result := (wavPath, true), fs := fsOut,
              requests := [Request.post (get_tts_url c) (ttsBody c message language)
                (create_headers c), Request.get u (create_headers c)],
              logs := [] } ∧
      readFile fsOut wavPath = some (codec.encodeWav audio) := by
  obtain ⟨p, fs2, hconv, hread⟩ := convert_mp3_to_wav_ok codec fs g.content audio hdec
  refine ⟨p, fs2, ?_, hread⟩
  simp [create_and_get_tts, hpost, hstatus, hjson, hurl, hget, hconv]

/-- C4 witness: concrete run in a world serving decodable audio bytes. -/
theorem tts_success_transcodes_witness :
    ∃ (wavPath : String) (fsOut : FS),
      create_and_get_tts codec0 envOk fs0 cfg0 "hello" "en" =
        .ok { result := (wavPath, true), fs := fsOut,
              requests := [Request.post (get_tts_url cfg0) (ttsBody cfg0 "hello" "en")
                (create_headers cfg0), Request.get "http://h/audio.mp3" (create_headers cfg0)],
              logs := [] } ∧
      readFile fsOut wavPath = some (codec0.encodeWav [9, 8]) :=
  tts_success_transcodes codec0 envOk fs0 cfg0 "hello" "en" respOk
    [("url", Json.str "http://h/audio.mp3")] "http://h/audio.mp3" respMp3 [9, 8]
    rfl rfl rfl rfl rfl rfl

end HaSip
